import Mathlib

/-!
Verification of the coordinate mapper of the weather-maker repository
(latlong.py), irradiance/DHI pipeline and time-series normalizer
(weathermaker.py / weather-maker.py), and record emitters (tmy3.py,
weather-maker.py).  Real arithmetic of the source is embedded as exact
rational arithmetic; Python exceptions are embedded as an explicit
result type.
-/

set_option maxRecDepth 8000

/-- Grid cell size in degrees: latlong.py `CELLSIZE = 0.05`. -/
def CELLSIZE : ℚ := 5 / 100

/-- Longitude of the grid lower-left corner: latlong.py `XLLCORNER = 112.025`. -/
def XLLCORNER : ℚ := 112025 / 1000

/-- Latitude of the grid lower-left corner: latlong.py `YLLCORNER = -43.925`. -/
def YLLCORNER : ℚ := -43925 / 1000

/-- latlong.py `MAXCOLS = 839`. -/
def MAXCOLS : ℤ := 839

/-- latlong.py `MAXROWS = 679`. -/
def MAXROWS : ℤ := 679

/-- Python `int()` applied to a real value: truncation toward zero. -/
def pyInt (q : ℚ) : ℤ := if q < 0 then ⌈q⌉ else ⌊q⌋

/-- Python exceptions raised by the embedded code: `ValueError` from
`LatLong.__init__` and `int()`, `AssertionError` from `assert`,
`IndexError` from out-of-range list indexing. -/
inductive PyExc where
  | valueError
  | assertionError
  | indexError
deriving DecidableEq

/-- Result of running a piece of Python code: a value, or an uncaught
exception propagating to the caller. -/
inductive PyResult (α : Type) where
  | ok (val : α)
  | raised (exc : PyExc)
deriving DecidableEq

/-- A point of latitude and longitude (latlong.py class `LatLong`,
fields `self.lat` and `self.lon`). -/
structure LatLong where
  lat : ℚ
  lon : ℚ
deriving DecidableEq

/-- latlong.py `LatLong.__init__` with `is_xy=True`: raises `ValueError`
when `arg1 > MAXROWS or arg2 > MAXCOLS`, otherwise sets
`lat = YLLCORNER + CELLSIZE * (MAXROWS - arg1)` and
`lon = XLLCORNER + CELLSIZE * arg2`. -/
def LatLong.ofXY (arg1 arg2 : ℤ) : PyResult LatLong :=
  if MAXROWS < arg1 ∨ MAXCOLS < arg2 then .raised .valueError
  else .ok ⟨YLLCORNER + CELLSIZE * ((MAXROWS - arg1 : ℤ) : ℚ),
            XLLCORNER + CELLSIZE * (arg2 : ℚ)⟩

/-- The local variable `col` of latlong.py `LatLong.cartesian`:
`col = int((self.lon - XLLCORNER) / CELLSIZE)`. -/
def colCalc (p : LatLong) : ℤ := pyInt ((p.lon - XLLCORNER) / CELLSIZE)

/-- The local variable `row` of latlong.py `LatLong.cartesian`:
`row = int(MAXROWS - ((self.lat - YLLCORNER) / CELLSIZE)) - 1`. -/
def rowCalc (p : LatLong) : ℤ :=
  pyInt ((MAXROWS : ℚ) - (p.lat - YLLCORNER) / CELLSIZE) - 1

/-- latlong.py `LatLong.cartesian`: computes `col`, checks
`assert col < MAXCOLS`, computes `row`, checks `assert row >= 0`, and
returns `(row, col)`.  A failed `assert` raises `AssertionError`. -/
def LatLong.cartesian (p : LatLong) : PyResult (ℤ × ℤ) :=
  if colCalc p < MAXCOLS then
    if 0 ≤ rowCalc p then .ok (rowCalc p, colCalc p)
    else .raised .assertionError
  else .raised .assertionError

lemma CELLSIZE_pos : (0 : ℚ) < CELLSIZE := by norm_num [CELLSIZE]

lemma cartesian_ok_iff (p : LatLong) (r c : ℤ) :
    p.cartesian = .ok (r, c) ↔
      colCalc p < MAXCOLS ∧ 0 ≤ rowCalc p ∧ r = rowCalc p ∧ c = colCalc p := by
  by_cases hc : colCalc p < MAXCOLS <;> by_cases hr : 0 ≤ rowCalc p <;>
    simp [LatLong.cartesian, hc, hr, eq_comm]

lemma cartesian_raised_iff (p : LatLong) :
    p.cartesian = .raised .assertionError ↔ MAXCOLS ≤ colCalc p ∨ rowCalc p < 0 := by
  by_cases hc : colCalc p < MAXCOLS <;> by_cases hr : 0 ≤ rowCalc p <;>
    simp [LatLong.cartesian, hc, hr] <;> omega

lemma colCalc_canberra : colCalc ⟨-35, 149⟩ = 739 := by
  have h : ((149 : ℚ) - XLLCORNER) / CELLSIZE = 739 + 1 / 2 := by
    norm_num [XLLCORNER, CELLSIZE]
  rw [colCalc] ; show pyInt (((149 : ℚ) - XLLCORNER) / CELLSIZE) = 739
  rw [h, pyInt, if_neg (by norm_num)]
  norm_num [Int.floor_eq_iff]

lemma rowCalc_canberra : rowCalc ⟨-35, 149⟩ = 499 := by
  have h : (MAXROWS : ℚ) - (((-35 : ℚ)) - YLLCORNER) / CELLSIZE = 500 + 1 / 2 := by
    norm_num [MAXROWS, YLLCORNER, CELLSIZE]
  rw [rowCalc] ; show pyInt ((MAXROWS : ℚ) - (((-35 : ℚ)) - YLLCORNER) / CELLSIZE) - 1 = 499
  rw [h, pyInt, if_neg (by norm_num)]
  norm_num [Int.floor_eq_iff]

lemma cartesian_canberra : LatLong.cartesian ⟨-35, 149⟩ = .ok (499, 739) := by
  rw [(cartesian_ok_iff _ _ _), colCalc_canberra, rowCalc_canberra]
  refine ⟨by norm_num [MAXCOLS], by norm_num, rfl, rfl⟩

lemma ofXY_canberra : LatLong.ofXY 499 739 = .ok ⟨-(34925 / 1000), 148975 / 1000⟩ := by
  rw [LatLong.ofXY, if_neg (by norm_num [MAXROWS, MAXCOLS])]
  have h1 : YLLCORNER + CELLSIZE * ((MAXROWS - 499 : ℤ) : ℚ) = -(34925 / 1000) := by
    norm_num [YLLCORNER, CELLSIZE, MAXROWS]
  have h2 : XLLCORNER + CELLSIZE * ((739 : ℤ) : ℚ) = 148975 / 1000 := by
    norm_num [XLLCORNER, CELLSIZE]
  rw [h1, h2]

lemma colCalc_outside : colCalc ⟨-(89 / 2), 100⟩ = -240 := by
  have h : ((100 : ℚ) - XLLCORNER) / CELLSIZE = -(240 + 1 / 2) := by
    norm_num [XLLCORNER, CELLSIZE]
  rw [colCalc] ; show pyInt (((100 : ℚ) - XLLCORNER) / CELLSIZE) = -240
  rw [h, pyInt, if_pos (by norm_num), Int.ceil_neg]
  norm_num [Int.floor_eq_iff]

lemma rowCalc_outside : rowCalc ⟨-(89 / 2), 100⟩ = 689 := by
  have h : (MAXROWS : ℚ) - ((-(89 / 2) : ℚ) - YLLCORNER) / CELLSIZE = 690 + 1 / 2 := by
    norm_num [MAXROWS, YLLCORNER, CELLSIZE]
  rw [rowCalc]
  show pyInt ((MAXROWS : ℚ) - ((-(89 / 2) : ℚ) - YLLCORNER) / CELLSIZE) - 1 = 689
  rw [h, pyInt, if_neg (by norm_num)]
  norm_num [Int.floor_eq_iff]

/-- Claim C1 counterexample: at the in-bounds point (lat = -35, lon = 149),
`LatLong.cartesian` returns row 499, while the claimed formula
`MAXROWS - floor((lat - YLLCORNER)/CELLSIZE) - 1` gives 500.  (The source
computes `int(MAXROWS - offset) - 1`, not `MAXROWS - int(offset) - 1`.) -/
theorem C1_row_formula_counterexample :
    LatLong.cartesian ⟨-35, 149⟩ = .ok (499, 739) ∧
    MAXROWS - ⌊(((-35 : ℚ)) - YLLCORNER) / CELLSIZE⌋ - 1 = 500 ∧
    (499 : ℤ) ≠ 500 := by
  refine ⟨cartesian_canberra, ?_, by norm_num⟩
  have h : (((-35 : ℚ)) - YLLCORNER) / CELLSIZE = 178 + 1 / 2 := by
    norm_num [YLLCORNER, CELLSIZE]
  rw [h, MAXROWS]
  norm_num [Int.floor_eq_iff]

/-- Claim C1 (amended): for every point with `XLLCORNER ≤ lon` and
`lat ≤ YLLCORNER + CELLSIZE * MAXROWS` (inside the grid extent), a
successful `LatLong.cartesian` returns
`col = floor((lon - XLLCORNER)/CELLSIZE)` as claimed, but
`row = MAXROWS - ceil((lat - YLLCORNER)/CELLSIZE) - 1` — ceiling, not the
claimed floor (the two agree only when the latitude offset is an exact
multiple of CELLSIZE). -/
theorem C1_cartesian_formula (p : LatLong) (r c : ℤ)
    (hlon : XLLCORNER ≤ p.lon)
    (hlat : p.lat ≤ YLLCORNER + CELLSIZE * (MAXROWS : ℚ))
    (hok : p.cartesian = .ok (r, c)) :
    c = ⌊(p.lon - XLLCORNER) / CELLSIZE⌋ ∧
    r = MAXROWS - ⌈(p.lat - YLLCORNER) / CELLSIZE⌉ - 1 := by
  obtain ⟨-, -, hre, hce⟩ := (cartesian_ok_iff p r c).mp hok
  subst hre hce
  constructor
  · have h0 : (0 : ℚ) ≤ (p.lon - XLLCORNER) / CELLSIZE :=
      div_nonneg (by linarith) (le_of_lt CELLSIZE_pos)
    rw [colCalc, pyInt, if_neg (not_lt.mpr h0)]
  · have hx : (p.lat - YLLCORNER) / CELLSIZE ≤ (MAXROWS : ℚ) := by
      rw [div_le_iff₀ CELLSIZE_pos]
      calc p.lat - YLLCORNER ≤ CELLSIZE * (MAXROWS : ℚ) := by linarith
        _ = (MAXROWS : ℚ) * CELLSIZE := mul_comm _ _
    have h0 : (0 : ℚ) ≤ (MAXROWS : ℚ) - (p.lat - YLLCORNER) / CELLSIZE := by linarith
    rw [rowCalc, pyInt, if_neg (not_lt.mpr h0),
      show (MAXROWS : ℚ) - (p.lat - YLLCORNER) / CELLSIZE
        = ((MAXROWS : ℤ) : ℚ) + -((p.lat - YLLCORNER) / CELLSIZE) by ring,
      Int.floor_int_add, Int.floor_neg]
    ring

/-- Witness for C1: the amended formula applied at (lat = -35, lon = 149). -/
theorem C1_cartesian_formula_witness :
    LatLong.cartesian ⟨-35, 149⟩ = .ok (499, 739) ∧
    (739 : ℤ) = ⌊((149 : ℚ) - XLLCORNER) / CELLSIZE⌋ ∧
    (499 : ℤ) = MAXROWS - ⌈(((-35 : ℚ)) - YLLCORNER) / CELLSIZE⌉ - 1 :=
  ⟨cartesian_canberra,
   C1_cartesian_formula ⟨-35, 149⟩ 499 739
     (by norm_num [XLLCORNER])
     (by norm_num [YLLCORNER, CELLSIZE, MAXROWS])
     cartesian_canberra⟩

/-- Claim C2 counterexample: the forward and inverse values are exactly as
claimed, but the returned latitude -34.925 is 0.075° from the original
latitude -35, which exceeds one cell width (0.05°): the round trip is not
within one cell width of the original point. -/
theorem C2_roundtrip_counterexample :
    LatLong.cartesian ⟨-35, 149⟩ = .ok (499, 739) ∧
    LatLong.ofXY 499 739 = .ok ⟨-(34925 / 1000), 148975 / 1000⟩ ∧
    ¬ (|(-(34925 / 1000) : ℚ) - (-35)| ≤ CELLSIZE) := by
  refine ⟨cartesian_canberra, ofXY_canberra, ?_⟩
  rw [show |(-(34925 / 1000) : ℚ) - (-35)| = 75 / 1000 by
    rw [abs_of_nonneg] <;> norm_num]
  norm_num [CELLSIZE]

/-- Claim C2 (amended): `toCell` of (lat = -35, lon = 149) is exactly
(row = 499, col = 739), and `toPoint` of (499, 739) is exactly
(lat = -34.925, lon = 148.975) — within 1.5 cell widths of the original
latitude and within one cell width of the original longitude. -/
theorem C2_roundtrip :
    LatLong.cartesian ⟨-35, 149⟩ = .ok (499, 739) ∧
    LatLong.ofXY 499 739 = .ok ⟨-(34925 / 1000), 148975 / 1000⟩ ∧
    |(-(34925 / 1000) : ℚ) - (-35)| ≤ (3 / 2) * CELLSIZE ∧
    |((148975 / 1000) : ℚ) - 149| ≤ CELLSIZE := by
  refine ⟨cartesian_canberra, ofXY_canberra, ?_, ?_⟩
  · rw [show |(-(34925 / 1000) : ℚ) - (-35)| = 75 / 1000 by
      rw [abs_of_nonneg] <;> norm_num]
    norm_num [CELLSIZE]
  · rw [show |((148975 / 1000) : ℚ) - 149| = 25 / 1000 by
      rw [abs_of_nonpos] <;> norm_num]
    norm_num [CELLSIZE]

/-- Claim C3 counterexample: the point (lat = -44.5, lon = 100) has computed
cell (row = 689, col = -240) — row ≥ MAXROWS and col < 0, outside the grid —
yet `LatLong.cartesian` returns it without raising any error: the asserts
only guard `col < MAXCOLS` and `row >= 0`, not `col >= 0` or `row < MAXROWS`. -/
theorem C3_out_of_range_counterexample :
    LatLong.cartesian ⟨-(89 / 2), 100⟩ = .ok (689, -240) ∧
    MAXROWS ≤ (689 : ℤ) ∧ (-240 : ℤ) < 0 := by
  refine ⟨?_, by norm_num [MAXROWS], by norm_num⟩
  rw [(cartesian_ok_iff _ _ _), colCalc_outside, rowCalc_outside]
  refine ⟨by norm_num [MAXCOLS], by norm_num, rfl, rfl⟩

/-- Claim C3 (amended): `LatLong.cartesian` raises its out-of-range error
exactly when the computed col ≥ MAXCOLS or the computed row < 0; cells with
row ≥ MAXROWS or col < 0 are returned without any error.  Whenever the
computed cell lies fully inside the grid, the call succeeds and returns it;
every successful result satisfies row ≥ 0 and col < MAXCOLS (but not
necessarily row < MAXROWS or col ≥ 0). -/
theorem C3_out_of_range (p : LatLong) :
    (p.cartesian = .raised .assertionError ↔ MAXCOLS ≤ colCalc p ∨ rowCalc p < 0) ∧
    (∀ r c : ℤ, p.cartesian = .ok (r, c) →
      r = rowCalc p ∧ c = colCalc p ∧ 0 ≤ r ∧ c < MAXCOLS) ∧
    (0 ≤ rowCalc p → rowCalc p < MAXROWS → 0 ≤ colCalc p → colCalc p < MAXCOLS →
      p.cartesian = .ok (rowCalc p, colCalc p)) := by
  refine ⟨cartesian_raised_iff p, ?_, ?_⟩
  · intro r c hok
    obtain ⟨hc, hr, hre, hce⟩ := (cartesian_ok_iff p r c).mp hok
    exact ⟨hre, hce, hre ▸ hr, hce ▸ hc⟩
  · intro h1 h2 h3 h4
    exact (cartesian_ok_iff p _ _).mpr ⟨h4, h1, rfl, rfl⟩

/-- Witness for C3: the in-bounds cell (499, 739) of the point
(lat = -35, lon = 149) is returned without error. -/
theorem C3_out_of_range_witness :
    LatLong.cartesian ⟨-35, 149⟩ =
      .ok (rowCalc ⟨-35, 149⟩, colCalc ⟨-35, 149⟩) ∧
    (0 : ℤ) ≤ 499 ∧ (739 : ℤ) < MAXCOLS :=
  ⟨(C3_out_of_range ⟨-35, 149⟩).2.2
     (by rw [rowCalc_canberra] ; norm_num)
     (by rw [rowCalc_canberra] ; norm_num [MAXROWS])
     (by rw [colCalc_canberra] ; norm_num)
     (by rw [colCalc_canberra] ; norm_num [MAXCOLS]),
   by norm_num, by norm_num [MAXCOLS]⟩

/-- Claim C10: the grid-index constructor raises `ValueError` iff
`row > MAXROWS` or `col > MAXCOLS`; the boundary indices (679, 839) are
accepted — even though they lie outside the documented index extent
`0 ≤ row < MAXROWS`, `0 ≤ col < MAXCOLS` — and yield the point
(lat = YLLCORNER, lon = XLLCORNER + CELLSIZE * 839). -/
theorem C10_ofXY_boundary :
    (∀ arg1 arg2 : ℤ,
      LatLong.ofXY arg1 arg2 = .raised .valueError ↔ MAXROWS < arg1 ∨ MAXCOLS < arg2) ∧
    LatLong.ofXY MAXROWS MAXCOLS = .ok ⟨YLLCORNER, XLLCORNER + CELLSIZE * 839⟩ ∧
    ¬ (MAXROWS < MAXROWS) ∧ ¬ (MAXCOLS < MAXCOLS) := by
  refine ⟨?_, ?_, by norm_num, by norm_num⟩
  · intro arg1 arg2
    by_cases h : MAXROWS < arg1 ∨ MAXCOLS < arg2 <;> simp [LatLong.ofXY, h]
  · rw [LatLong.ofXY, if_neg (by norm_num)]
    have h1 : YLLCORNER + CELLSIZE * ((MAXROWS - MAXROWS : ℤ) : ℚ) = YLLCORNER := by
      norm_num
    have h2 : XLLCORNER + CELLSIZE * ((MAXCOLS : ℤ) : ℚ)
        = XLLCORNER + CELLSIZE * 839 := by
      norm_num [MAXCOLS]
    rw [h1, h2]

/-- weathermaker.py `compute_dhi` (identical in weather-maker.py): returns
-999 when `dnr == -999 or ghr == -999`; otherwise computes
`dhr = ghr - dnr * cos(zenith)` and replaces it by 0 when `dhr < 10`.
`cosZenith` abstracts the ephem solar-position value `cos(pi/2 - sun.alt)`
computed for the hour of the record — an external library call; the
sentinel and clamping logic is that of the source. -/
def compute_dhi (ghr dnr cosZenith : ℚ) : ℚ :=
  if dnr = -999 ∨ ghr = -999 then -999
  else if ghr - dnr * cosZenith < 10 then 0 else ghr - dnr * cosZenith

/-- Claim C4 counterexample: ghi = 405, dni = 400, zenith = 0 (cos = 1) are
non-sentinel inputs whose value ghi - dni*cos(zenith) = 5 is at/above every
small negative threshold, yet `compute_dhi` clamps it to 0: the source
clamps everything below +10, not only strongly negative values. -/
theorem C4_clamp_counterexample :
    compute_dhi 405 400 1 = 0 ∧
    (405 : ℚ) - 400 * 1 = 5 ∧ (-10 : ℚ) ≤ 5 ∧
    (405 : ℚ) ≠ -999 ∧ (400 : ℚ) ≠ -999 ∧ (0 : ℚ) ≠ 5 := by
  refine ⟨?_, by norm_num, by norm_num, by norm_num, by norm_num, by norm_num⟩
  rw [compute_dhi, if_neg (by norm_num), if_pos (by norm_num)]

/-- Claim C4 (amended): for non-sentinel inputs, `compute_dhi` returns
ghi - dni*cos(zenith) unchanged whenever that value is at least +10, and
clamps every value below +10 (including small positive and all negative
values) to 0; in particular ghi = 500, dni = 400, zenith = 0 gives 100. -/
theorem C4_clamp (ghr dnr cosZenith : ℚ)
    (hg : ghr ≠ -999) (hd : dnr ≠ -999) :
    (10 ≤ ghr - dnr * cosZenith →
      compute_dhi ghr dnr cosZenith = ghr - dnr * cosZenith) ∧
    (ghr - dnr * cosZenith < 10 → compute_dhi ghr dnr cosZenith = 0) ∧
    compute_dhi 500 400 1 = 100 := by
  have hns : ¬ (dnr = -999 ∨ ghr = -999) := by tauto
  refine ⟨fun h => ?_, fun h => ?_, ?_⟩
  · rw [compute_dhi, if_neg hns, if_neg (not_lt.mpr h)]
  · rw [compute_dhi, if_neg hns, if_pos h]
  · rw [compute_dhi, if_neg (by norm_num), if_neg (by norm_num)]
    norm_num

/-- Witness for C4: the amended clamping behaviour at ghi = 500, dni = 400,
zenith = 0. -/
theorem C4_clamp_witness :
    compute_dhi 500 400 1 = 500 - 400 * 1 ∧ compute_dhi 500 400 1 = 100 :=
  ⟨(C4_clamp 500 400 1 (by norm_num) (by norm_num)).1 (by norm_num),
   (C4_clamp 500 400 1 (by norm_num) (by norm_num)).2.2⟩

/-- Claim C5: whatever the hour (hence whatever cos(zenith)), if either
input is the -999 missing sentinel, `compute_dhi` returns -999. -/
theorem C5_sentinel (ghr dnr cosZenith : ℚ)
    (h : ghr = -999 ∨ dnr = -999) :
    compute_dhi ghr dnr cosZenith = -999 := by
  rw [compute_dhi, if_pos (Or.symm h)]

/-- Witness for C5: a sentinel GHI with an ordinary DNI. -/
theorem C5_sentinel_witness : compute_dhi (-999) 123 (1 / 2) = -999 :=
  C5_sentinel (-999) 123 (1 / 2) (Or.inl rfl)

/-- A solar grid file as seen by weathermaker.py `disk_irradiances` after
`readlines()` and `split()`: a list of lines, each a list of whitespace
tokens; a token is `some v` when Python `int()` parses it to `v`, `none`
when `int()` would raise `ValueError`. -/
abbrev GridFile := List (List (Option ℤ))

/-- One `try`/`except IOError` block of weathermaker.py `disk_irradiances`:
`none` for the grid file means `open` raised `IOError` (file missing), which
is caught, logged, and turned into the value 0; with an open file,
`readlines()[xcoord + 6]` out of range raises an uncaught `IndexError`,
`line.split()[ycoord]` out of range raises an uncaught `IndexError`, and a
non-integer token makes `int(...)` raise an uncaught `ValueError`. -/
def readGridValue (file : Option GridFile) (xcoord ycoord : ℕ) : PyResult ℤ :=
  match file with
  | none => .ok 0
  | some lines =>
    match lines.get? (xcoord + 6) with
    | none => .raised .indexError
    | some line =>
      match line.get? ycoord with
      | none => .raised .indexError
      | some none => .raised .valueError
      | some (some v) => .ok v

/-- weathermaker.py `disk_irradiances` for a fixed cell (xcoord, ycoord):
reads the GHI grid file, then the DNI grid file, each through its own
`try`/`except IOError` block, and returns `(ghr, dnr)`; any uncaught
exception from either block propagates. -/
def disk_irradiances (ghiFile dniFile : Option GridFile) (xcoord ycoord : ℕ) :
    PyResult (ℤ × ℤ) :=
  match readGridValue ghiFile xcoord ycoord with
  | .raised e => .raised e
  | .ok ghr =>
    match readGridValue dniFile xcoord ycoord with
    | .raised e => .raised e
    | .ok dnr => .ok (ghr, dnr)

/-- A present GHI grid file whose data line 6 holds one malformed
(non-integer) token at word index 0. -/
def malformedFile : GridFile := [[], [], [], [], [], [], [none]]

/-- Claim C7 counterexample: with a present but malformed GHI grid file,
`disk_irradiances` propagates an uncaught `ValueError` — the run aborts —
instead of defaulting the reading to 0 and continuing: only `IOError`
(missing file) is caught. -/
theorem C7_malformed_counterexample :
    disk_irradiances (some malformedFile) none 0 0 = .raised .valueError ∧
    disk_irradiances (some malformedFile) none 0 0 ≠ .ok (0, 0) := by
  constructor <;> decide

/-- Claim C7 (amended): a missing grid file (caught `IOError`) is non-fatal
and that reading defaults to 0 — both files missing yields (0, 0) and the
run continues — but malformed content is fatal: a missing data line or
word raises `IndexError` and a non-integer token raises `ValueError`,
both uncaught.  A well-formed token is returned as read. -/
theorem C7_missing_file_defaults (x y : ℕ) :
    readGridValue none x y = .ok 0 ∧
    disk_irradiances none none x y = .ok (0, 0) ∧
    (∀ f : GridFile, f[x + 6]? = none →
      readGridValue (some f) x y = .raised .indexError) ∧
    (∀ (f : GridFile) (ln : List (Option ℤ)), f[x + 6]? = some ln →
      ln[y]? = none → readGridValue (some f) x y = .raised .indexError) ∧
    (∀ (f : GridFile) (ln : List (Option ℤ)), f[x + 6]? = some ln →
      ln[y]? = some none → readGridValue (some f) x y = .raised .valueError) ∧
    (∀ (f : GridFile) (ln : List (Option ℤ)) (v : ℤ), f[x + 6]? = some ln →
      ln[y]? = some (some v) → readGridValue (some f) x y = .ok v) := by
  refine ⟨rfl, rfl, ?_, ?_, ?_, ?_⟩
  · intro f hf ; simp [readGridValue, hf]
  · intro f ln hf hl ; simp [readGridValue, hf, hl]
  · intro f ln hf hl ; simp [readGridValue, hf, hl]
  · intro f ln v hf hl ; simp [readGridValue, hf, hl]

/-- Witness for C7: both grid files missing at cell (0, 0) yields the
default reading (0, 0) with no exception, and a malformed token is fatal. -/
theorem C7_missing_file_defaults_witness :
    disk_irradiances none none 0 0 = .ok (0, 0) ∧
    readGridValue (some malformedFile) 0 0 = .raised .valueError :=
  ⟨(C7_missing_file_defaults 0 0).2.1,
   (C7_missing_file_defaults 0 0).2.2.2.2.1 malformedFile [none] rfl rfl⟩

/-- The wind-speed step of the per-hour record loop (weathermaker.py
`process_grids`; identically in weather-maker.py):
`if record[wind-speed] != 999: record[wind-speed] /= 3.6`
(the key is the string wind-speed). -/
def process_wind_speed (v : ℚ) : ℚ := if v ≠ 999 then v / (36 / 10) else v

/-- Claim C8: the wind-speed sentinel 999 is never divided by 3.6, and
every other numeric wind-speed value is divided by 3.6. -/
theorem C8_wind_speed (v : ℚ) :
    (v = 999 → process_wind_speed v = v) ∧
    (v ≠ 999 → process_wind_speed v = v / (36 / 10)) := by
  constructor <;> intro h <;> simp [process_wind_speed, h]

/-- Witness for C8: the sentinel passes through; 36 km/h becomes 10 m/s. -/
theorem C8_wind_speed_witness :
    process_wind_speed 999 = 999 ∧ process_wind_speed 36 = 10 := by
  refine ⟨(C8_wind_speed 999).1 rfl, ?_⟩
  rw [(C8_wind_speed 36).2 (by norm_num)] ; norm_num

/-- The leap-year test the reindex range follows (pandas builds the hourly
range from real calendar dates, Gregorian rules). -/
def isGregorianLeap (year : ℤ) : Bool :=
  (year % 4 == 0 && year % 100 != 0) || year % 400 == 0

/-- Month lengths of a calendar year (the calendar of the external
datetime library, which pandas date_range and datetime.timedelta follow). -/
def monthLengths (leap : Bool) : List ℕ :=
  [31, if leap then 29 else 28, 31, 30, 31, 30, 31, 31, 30, 31, 30, 31]

/-- Row count of the reindexed hourly series: pandas
`date_range(datetime(year, 1, 1), datetime(year, 12, 31, 23), freq=H)`
holds one stamp per hour from Jan 1 00:00 through Dec 31 23:00, i.e.
24 hours per calendar day of the year. -/
def reindexLen (year : ℤ) : ℕ := 24 * (monthLengths (isGregorianLeap year)).sum

/-- Truth value of the weathermaker.py module-level
`assert len(df) == 8784 if args.year % 4 == 0 else 8760`
(identical in weather-maker.py).  By Python operator precedence this
asserts the conditional expression
`(len(df) == 8784) if (args.year % 4 == 0) else 8760`: for `year % 4 == 0`
the asserted value is the bool `len(df) == 8784`, otherwise it is the int
literal 8760, and `assert` passes iff the value is truthy (a nonzero int). -/
def integrity_assert_passes (year : ℤ) (n : ℕ) : Bool :=
  if year % 4 = 0 then n == 8784 else (8760 : ℕ) != 0

/-- Claim C6 (code bug): the reindexed series for the non-leap year 2015
has exactly 8760 rows, but the integrity assert is vacuous for any year
with `year % 4 != 0` — the asserted expression is the always-truthy int
literal 8760, so a series of e.g. 100 rows passes and the run does not
abort.  Only for `year % 4 == 0` (e.g. 2016) does a wrong length fail the
assert.  The claim describes the clear intent
`assert len(df) == (8784 if leap else 8760)`; the code drops the parentheses. -/
theorem C6_assert_vacuous_for_nonleap :
    reindexLen 2015 = 8760 ∧
    integrity_assert_passes 2015 100 = true ∧
    (100 : ℕ) ≠ 8760 ∧
    integrity_assert_passes 2016 100 = false ∧
    reindexLen 2016 = 8784 := by
  refine ⟨by decide, by decide, by decide, by decide, by decide⟩

/-- Month and day-of-month of a 0-based day-of-year, walking the month
lengths (the date arithmetic of the external datetime library; the `[]` case is
unreachable for day indices within one year and maps the overflow into a
pseudo 13th month). -/
def monthDayAux : List ℕ → ℕ → ℕ × ℕ
  | [], d => (13, d + 1)
  | m :: rest, d =>
    if d < m then (1, d + 1)
    else ((monthDayAux rest (d - m)).1 + 1, (monthDayAux rest (d - m)).2)

/-- (month, day) of the datetime value
`datetime(year, 1, 1) + timedelta(hours=h)` computed by the record
emitters, for an hour index `h` within the year. -/
def hourDate (leap : Bool) (h : ℕ) : ℕ × ℕ :=
  monthDayAux (monthLengths leap) (h / 24)

/-- Number of output lines printed by tmy3.py `record` for hour index
`h` of the target year: the single `print` is skipped exactly when the
date of the hour satisfies `time.month == 2 and time.day == 29`. -/
def tmy3_record_lines (leap : Bool) (h : ℕ) : ℕ :=
  if (hourDate leap h).1 = 2 ∧ (hourDate leap h).2 = 29 then 0 else 1

/-- Number of output lines printed by weather-maker.py `epw_record` for
hour index `h`: same skip condition as the TMY3 emitter. -/
def epw_record_lines (leap : Bool) (h : ℕ) : ℕ :=
  if (hourDate leap h).1 = 2 ∧ (hourDate leap h).2 = 29 then 0 else 1

lemma monthDay_feb29 (d : ℕ) (hd : d < 366) :
    monthDayAux (monthLengths true) d = (2, 29) ↔ d = 59 := by
  revert d ; decide

/-- Claim C9: in a leap year the working hourly series has 8784 rows (the
reindex range of e.g. 2016 and 2020), the hour indices dated Feb 29 are
exactly 1416 ≤ h < 1440, and for every hour index h < 8784 both record
emitters (TMY3 and EPW) print no line when h is dated Feb 29 and exactly
one line otherwise. -/
theorem C9_leap_day_emission (h : ℕ) (hh : h < 8784) :
    reindexLen 2020 = 8784 ∧
    (hourDate true h = (2, 29) ↔ 1416 ≤ h ∧ h < 1440) ∧
    (hourDate true h = (2, 29) →
      tmy3_record_lines true h = 0 ∧ epw_record_lines true h = 0) ∧
    (hourDate true h ≠ (2, 29) →
      tmy3_record_lines true h = 1 ∧ epw_record_lines true h = 1) := by
  have hd : h / 24 < 366 := by omega
  have hiff : hourDate true h = (2, 29) ↔ h / 24 = 59 := monthDay_feb29 (h / 24) hd
  refine ⟨by decide, by rw [hiff] ; omega, ?_, ?_⟩
  · intro hfeb
    have h1 : (hourDate true h).1 = 2 ∧ (hourDate true h).2 = 29 := by
      rw [hfeb] ; exact ⟨rfl, rfl⟩
    rw [tmy3_record_lines, epw_record_lines, if_pos h1]
    exact ⟨rfl, rfl⟩
  · intro hne
    have h1 : ¬ ((hourDate true h).1 = 2 ∧ (hourDate true h).2 = 29) := by
      intro hc
      exact hne (Prod.ext_iff.mpr ⟨hc.1, hc.2⟩)
    rw [tmy3_record_lines, epw_record_lines, if_neg h1]
    exact ⟨rfl, rfl⟩

/-- Witness for C9: the first hour of Feb 29 (index 1416) is skipped by
both emitters; hour 0 (Jan 1) is emitted once by both. -/
theorem C9_leap_day_emission_witness :
    (tmy3_record_lines true 1416 = 0 ∧ epw_record_lines true 1416 = 0) ∧
    (tmy3_record_lines true 0 = 1 ∧ epw_record_lines true 0 = 1) :=
  ⟨(C9_leap_day_emission 1416 (by norm_num)).2.2.1
     ((C9_leap_day_emission 1416 (by norm_num)).2.1.mpr (by norm_num)),
   (C9_leap_day_emission 0 (by norm_num)).2.2.2
     (fun hc => by
       have := (C9_leap_day_emission 0 (by norm_num)).2.1.mp hc
       omega)⟩
